import Mathlib

/-!
Shallow embedding of the room/session core of `src/server.py`
(kaboom-multiplayer): the card and deck model, the per-room game state
machine, the per-viewer masking projection, and the socket event handlers
for `join_game`, `draw_card`, `replace_card`, `discard_drawn_card` and
`disconnect`.

Modelling conventions:
* Python lists become Lean lists; `list.pop()` removes the last element
  (`getLast?` / `dropLast`).
* Python dicts (`game.players`, `active_games`) preserve insertion order,
  so they become association lists with `assocGet` / `assocSet` /
  `assocErase` mirroring `d[k]`, `d[k] = v` and `del d[k]`.
* `random.shuffle` is modelled by an explicit shuffle-oracle parameter
  (`shC` for card lists, `shS` for sid lists); theorems that need it
  assume the oracle is length-preserving.
* A Python runtime error (`IndexError` from out-of-range indexing,
  `random.choice` on an empty sequence) is modelled as `Except.error`;
  handlers therefore return `Except String (state × events)`.
* `request.sid`, the caller's connection identity, is passed to each
  handler as the explicit argument `sid`.
* `emit('error', msg)` (delivered to the calling connection only),
  `socketio.emit('game_message', msg, room=room_id)` (room broadcast) and
  `socketio.emit('game_state_update', state, room=sid)` (per-viewer state
  snapshot) become the three constructors of `Event`.
-/

namespace Kaboom

/-- Association-list read, modelling Python `d.get(k)` / `k in d` on an
insertion-ordered dict. -/
def assocGet {α : Type} (k : String) : List (String × α) → Option α
  | [] => none
  | (k₁, v) :: rest => if k₁ = k then some v else assocGet k rest

/-- Association-list write, modelling Python `d[k] = v`: updates the entry
in place if the key is present, otherwise appends it. -/
def assocSet {α : Type} (k : String) (v : α) : List (String × α) → List (String × α)
  | [] => [(k, v)]
  | (k₁, v₁) :: rest => if k₁ = k then (k, v) :: rest else (k₁, v₁) :: assocSet k v rest

/-- Association-list delete, modelling Python `del d[k]`. -/
def assocErase {α : Type} (k : String) : List (String × α) → List (String × α)
  | [] => []
  | (k₁, v₁) :: rest => if k₁ = k then rest else (k₁, v₁) :: assocErase k rest

/-- `Card.__init__`: rank, optional suit (absent for Jokers), face-up flag
(initially false). -/
structure Card where
  rank : String
  suit : Option String
  is_face_up : Bool
deriving Repr, DecidableEq

/-- `Card.get_display_name`: `"Joker"` for Jokers, otherwise rank followed
by the suit's first letter. -/
def Card.get_display_name (c : Card) : String :=
  if c.rank = "Joker" then "Joker" else c.rank ++ (c.suit.getD "").take 1

/-- The serialised form of a card produced by `Card.to_dict`. -/
structure CardDict where
  rank : String
  suit : Option String
  is_face_up : Bool
  display_name : String
deriving Repr, DecidableEq

/-- `Card.to_dict`. -/
def Card.to_dict (c : Card) : CardDict :=
  { rank := c.rank, suit := c.suit, is_face_up := c.is_face_up,
    display_name := c.get_display_name }

/-- `Deck.RANKS`. -/
def Deck.RANKS : List String :=
  ["A", "2", "3", "4", "5", "6", "7", "8", "9", "10", "J", "Q", "K"]

/-- `Deck.SUITS`. -/
def Deck.SUITS : List String :=
  ["Hearts", "Diamonds", "Clubs", "Spades"]

/-- `Deck`: the draw pile (`cards`) and the discard pile. -/
structure Deck where
  cards : List Card
  discard_pile : List Card
deriving Repr, DecidableEq

/-- `Deck._create_deck`: 13 ranks x 4 suits plus two Jokers, all face
down, in construction order. -/
def Deck.freshCards : List Card :=
  (Deck.SUITS.flatMap fun suit => Deck.RANKS.map fun rank =>
    { rank := rank, suit := some suit, is_face_up := false })
  ++ [{ rank := "Joker", suit := none, is_face_up := false },
      { rank := "Joker", suit := none, is_face_up := false }]

/-- `Deck.__init__`: the freshly created 54-card pile passed through the
shuffle oracle, with an empty discard pile. -/
def Deck.init (shC : List Card → List Card) : Deck :=
  { cards := shC Deck.freshCards, discard_pile := [] }

/-- `Deck.draw_card`: pop the top (last) card; if the draw pile is empty,
first recycle the whole discard pile through the shuffle oracle; if both
piles are empty, return `none`. -/
def Deck.draw_card (shC : List Card → List Card) (d : Deck) : Option (Card × Deck) :=
  if d.cards.isEmpty then
    if d.discard_pile.isEmpty then none
    else
      (shC d.discard_pile).getLast?.map fun c =>
        (c, { cards := (shC d.discard_pile).dropLast, discard_pile := [] })
  else
    d.cards.getLast?.map fun c =>
      (c, { cards := d.cards.dropLast, discard_pile := d.discard_pile })

/-- A player record: `{'name': name, 'hand': [Card objects]}`. -/
structure Player where
  name : String
  hand : List Card
deriving Repr, DecidableEq

/-- `GameState.__init__` fields. -/
structure GameState where
  room_id : String
  players : List (String × Player)
  deck : Deck
  drawn_card : Option Card
  turn_order : List String
  current_turn_index : Nat
  status : String
  max_players : Nat
deriving Repr, DecidableEq

/-- `GameState.__init__`: an empty WAITING room with a freshly shuffled
deck and capacity 2. -/
def GameState.freshRoom (shC : List Card → List Card) (room_id : String) : GameState :=
  { room_id := room_id, players := [], deck := Deck.init shC, drawn_card := none,
    turn_order := [], current_turn_index := 0, status := "WAITING", max_players := 2 }

/-- `GameState.is_full`: `len(self.players) >= self.max_players`. -/
def GameState.is_full (g : GameState) : Bool :=
  g.max_players ≤ g.players.length

/-- `GameState.get_player_sid`: `None` when the turn order is empty,
otherwise `turn_order[current_turn_index]` — an unchecked index whose
out-of-range access is the Python `IndexError`, modelled as `.error`. -/
def GameState.get_player_sid (g : GameState) : Except String (Option String) :=
  if g.turn_order.isEmpty then .ok none
  else
    match g.turn_order[g.current_turn_index]? with
    | some sid => .ok (some sid)
    | none => .error "IndexError: list index out of range"

/-- `GameState.advance_turn`:
`current_turn_index = (current_turn_index + 1) % len(turn_order)`. -/
def GameState.advance_turn (g : GameState) : GameState :=
  { g with current_turn_index := (g.current_turn_index + 1) % g.turn_order.length }

/-- The masking step inside `GameState.get_state_for_client`: the owner's
cards and face-up cards are serialised verbatim; any other player's
face-down card has its display name replaced by `'??'` and its rank and
suit by `'HIDDEN'`. -/
def maskCard (viewer owner : String) (c : Card) : CardDict :=
  let cd := c.to_dict
  if owner ≠ viewer ∧ c.is_face_up = false then
    { cd with display_name := "??", rank := "HIDDEN", suit := some "HIDDEN" }
  else cd

/-- One entry of the `players` list in the client-facing snapshot. -/
structure PlayerView where
  sid : String
  name : String
  hand : List CardDict
  is_current_player : Bool
deriving Repr, DecidableEq

/-- The full client-facing state snapshot built by
`GameState.get_state_for_client`. -/
structure ClientState where
  room_id : String
  status : String
  players : List PlayerView
  deck_count : Nat
  discard_count : Nat
  drawn_card : Option CardDict
  current_turn_sid : Option String
deriving Repr, DecidableEq

/-- The pure body of `GameState.get_state_for_client` once the current
player's sid has been computed. -/
def GameState.buildClientState (g : GameState) (sid : String) (turn_sid : Option String) :
    ClientState :=
  { room_id := g.room_id,
    status := g.status,
    players := g.players.map fun p =>
      { sid := p.1, name := p.2.name,
        hand := p.2.hand.map (maskCard sid p.1),
        is_current_player := decide (some p.1 = turn_sid) },
    deck_count := g.deck.cards.length,
    discard_count := g.deck.discard_pile.length,
    drawn_card := g.drawn_card.map Card.to_dict,
    current_turn_sid := turn_sid }

/-- `GameState.get_state_for_client`: compute the current player's sid
(which can raise `IndexError`) and build the per-viewer snapshot. -/
def GameState.get_state_for_client (g : GameState) (sid : String) : Except String ClientState := do
  let turn_sid ← g.get_player_sid
  .ok (g.buildClientState sid turn_sid)

/-- One draw of the dealing loop in `GameState.start_game`: draw a card
(skipping silently on exhaustion, matching `if card:`), mark it face up
when it is one of the first two dealt (`i < 2`), and append it. -/
def drawInto (shC : List Card → List Card) (st : Deck × List Card) (i : Nat) :
    Deck × List Card :=
  match Deck.draw_card shC st.1 with
  | none => st
  | some (c, d₁) => (d₁, st.2 ++ [if i < 2 then { c with is_face_up := true } else c])

/-- The `for i in range(4)` dealing loop of `GameState.start_game` for one
player. -/
def dealHand (shC : List Card → List Card) (d : Deck) (hand : List Card) :
    Deck × List Card :=
  (List.range 4).foldl (drawInto shC) (d, hand)

/-- The body of the per-player loop of `GameState.start_game`: deal into
this player's hand and append the updated record, threading the deck. -/
def dealFold (shC : List Card → List Card) (acc : Deck × List (String × Player))
    (p : String × Player) : Deck × List (String × Player) :=
  ((dealHand shC acc.1 p.2.hand).1,
    acc.2 ++ [(p.1, { p.2 with hand := (dealHand shC acc.1 p.2.hand).2 })])

/-- `GameState.start_game`: set status `PLAYING`, deal four cards to each
player in roster order (first two face up), set the turn order to a
shuffle of the player sids, and reset the turn index to 0. -/
def GameState.start_game (shC : List Card → List Card) (shS : List String → List String)
    (g : GameState) : GameState :=
  { g with status := "PLAYING",
           turn_order := shS (g.players.map Prod.fst),
           deck := (g.players.foldl (dealFold shC) (g.deck, [])).1,
           players := (g.players.foldl (dealFold shC) (g.deck, [])).2,
           current_turn_index := 0 }

/-- An outbound socket emission: a per-caller `error`, a room-wide
`game_message`, or a per-viewer `game_state_update`. -/
inductive Event where
  | errorTo (sid : String) (msg : String)
  | gameMessage (room : String) (msg : String)
  | stateUpdate (sid : String) (st : ClientState)
deriving Repr, DecidableEq

/-- The loop body of `broadcast_game_state`: one masked snapshot per sid in
the given list (the room's `turn_order`), propagating any `IndexError`
raised while building a snapshot. -/
def broadcastStates (g : GameState) : List String → Except String (List Event)
  | [] => .ok []
  | sid :: rest => do
      let st ← g.get_state_for_client sid
      let evs ← broadcastStates g rest
      .ok (.stateUpdate sid st :: evs)

/-- `handle_join_game` restricted to the room it resolved (lines 217-234 of
`src/server.py`): reject when the room is full and not yet playing,
otherwise add the player (Python dict assignment, so an already-present key
is overwritten), start the game when the room becomes full (emitting the
"Game starting" message), and broadcast the new state. -/
def joinGame (shC : List Card → List Card) (shS : List String → List String)
    (name : Option String) (sid : String) (g : GameState) :
    Except String (GameState × List Event) :=
  if g.is_full ∧ g.status ≠ "PLAYING" then
    .ok (g, [.errorTo sid "Room is full. Try again later."])
  else
    let player_name := name.getD ("Guest-" ++ toString (g.players.length + 1))
    let g₁ := { g with players := assocSet sid { name := player_name, hand := [] } g.players }
    if g₁.is_full then
      let g₂ := g₁.start_game shC shS
      match g₂.turn_order.head? with
      | none => .error "IndexError: list index out of range"
      | some first =>
        match assocGet first g₂.players with
        | none => .error "KeyError"
        | some firstPd => do
          let evs ← broadcastStates g₂ g₂.turn_order
          .ok (g₂, .gameMessage g.room_id
                ("Game starting! " ++ firstPd.name ++ " goes first.") :: evs)
    else do
      let evs ← broadcastStates g₁ g₁.turn_order
      .ok (g₁, evs)

/-- `handle_draw_card` restricted to the room resolved for the caller:
reject (error to the caller only) when the room is not `PLAYING`, it is not
the caller's turn, or a drawn card is already outstanding; on an exhausted
deck emit a single room-wide informational message and change nothing;
otherwise store the drawn card face up and broadcast. -/
def drawCardRoom (shC : List Card → List Card) (sid : String) (g : GameState) :
    Except String (GameState × List Event) :=
  match assocGet sid g.players with
  | none => .ok (g, [.errorTo sid "It is not your turn, or the game is not ready."])
  | some pd =>
    if g.status ≠ "PLAYING" then
      .ok (g, [.errorTo sid "It is not your turn, or the game is not ready."])
    else do
      let t ← g.get_player_sid
      if t ≠ some sid then
        .ok (g, [.errorTo sid "It is not your turn, or the game is not ready."])
      else if g.drawn_card.isSome then
        .ok (g, [.errorTo sid "You already have a drawn card to resolve."])
      else
        match Deck.draw_card shC g.deck with
        | none =>
          .ok (g, [.gameMessage g.room_id "Deck is empty! Game might be nearing its end."])
        | some (c, d₁) =>
          let c₁ := { c with is_face_up := true }
          let g₁ := { g with deck := d₁, drawn_card := some c₁ }
          do
            let evs ← broadcastStates g₁ g₁.turn_order
            .ok (g₁, .gameMessage g.room_id
                  (pd.name ++ " drew a " ++ c₁.get_display_name ++ ". Action required.") :: evs)

/-- `handle_replace_card` restricted to the room resolved for the caller:
after the turn/status, outstanding-drawn-card and position checks, swap the
drawn card (face up) into the hand at the requested position, append the
displaced card to the discard pile, clear the drawn card, advance the turn
and broadcast. -/
def replaceCardRoom (sid : String) (pos : Option Int) (g : GameState) :
    Except String (GameState × List Event) :=
  match assocGet sid g.players with
  | none => .ok (g, [.errorTo sid "It is not your turn, or the game is not ready."])
  | some pd =>
    if g.status ≠ "PLAYING" then
      .ok (g, [.errorTo sid "It is not your turn, or the game is not ready."])
    else do
      let t ← g.get_player_sid
      if t ≠ some sid then
        .ok (g, [.errorTo sid "It is not your turn, or the game is not ready."])
      else
        match g.drawn_card with
        | none => .ok (g, [.errorTo sid "No card has been drawn."])
        | some dc =>
          match pos with
          | none => .ok (g, [.errorTo sid "Invalid hand position specified (must be 0-3)."])
          | some p =>
            if ¬(0 ≤ p ∧ p < 4) then
              .ok (g, [.errorTo sid "Invalid hand position specified (must be 0-3)."])
            else
              match pd.hand[p.toNat]? with
              | none => .error "IndexError: list index out of range"
              | some old_card =>
                let g₁ := { g with
                  players := assocSet sid
                    { pd with hand := pd.hand.set p.toNat { dc with is_face_up := true } }
                    g.players,
                  deck := { g.deck with discard_pile := g.deck.discard_pile ++ [old_card] },
                  drawn_card := none }
                let g₂ := g₁.advance_turn
                do
                  let evs ← broadcastStates g₂ g₂.turn_order
                  .ok (g₂, .gameMessage g.room_id
                        (pd.name ++ " replaced a card at position " ++ toString p
                          ++ ". Turn over.") :: evs)

/-- `handle_discard` restricted to the room resolved for the caller: after
the turn/status and outstanding-drawn-card checks, append the drawn card to
the discard pile, clear it, advance the turn and broadcast. -/
def discardRoom (sid : String) (g : GameState) : Except String (GameState × List Event) :=
  match assocGet sid g.players with
  | none => .ok (g, [.errorTo sid "It is not your turn, or the game is not ready."])
  | some pd =>
    if g.status ≠ "PLAYING" then
      .ok (g, [.errorTo sid "It is not your turn, or the game is not ready."])
    else do
      let t ← g.get_player_sid
      if t ≠ some sid then
        .ok (g, [.errorTo sid "It is not your turn, or the game is not ready."])
      else
        match g.drawn_card with
        | none => .ok (g, [.errorTo sid "No card has been drawn to discard."])
        | some dc =>
          let g₁ := { g with
            deck := { g.deck with discard_pile := g.deck.discard_pile ++ [dc] },
            drawn_card := none }
          let g₂ := g₁.advance_turn
          do
            let evs ← broadcastStates g₂ g₂.turn_order
            .ok (g₂, .gameMessage g.room_id
                  (pd.name ++ " discarded the drawn card. Turn over.") :: evs)

/-- `handle_disconnect` restricted to the room resolved for the caller:
remove the player from the roster and turn order, announce the departure,
force the status back to `WAITING`, and either signal room destruction
(`none`) when the roster emptied or broadcast the reverted state. -/
def disconnectRoom (sid : String) (g : GameState) :
    Except String (Option GameState × List Event) :=
  match assocGet sid g.players with
  | none => .ok (some g, [])
  | some pd =>
    let g₁ := { g with
      players := assocErase sid g.players,
      turn_order := g.turn_order.filter fun x => x ≠ sid }
    let msg := Event.gameMessage g.room_id
      ("Player " ++ pd.name ++ " disconnected. Waiting for players.")
    let g₂ := { g₁ with status := "WAITING" }
    if g₂.players.isEmpty then .ok (none, [msg])
    else do
      let evs ← broadcastStates g₂ g₂.turn_order
      .ok (some g₂, msg :: evs)

/-- The global `active_games` registry: room id to room state, in creation
order. -/
abbrev Games := List (String × GameState)

/-- `get_game_and_player`: the first room whose roster contains the sid,
together with its registry key and the player record. -/
def get_game_and_player (sid : String) : Games → Option (String × GameState × Player)
  | [] => none
  | (rid, g) :: rest =>
    match assocGet sid g.players with
    | some pd => some (rid, g, pd)
    | none => get_game_and_player sid rest

/-- `broadcast_game_state`: look the room up in the registry and send one
masked snapshot per sid in its turn order; a missing room broadcasts
nothing. -/
def broadcast_game_state (games : Games) (room_id : String) : Except String (List Event) :=
  match assocGet room_id games with
  | none => .ok []
  | some g => broadcastStates g g.turn_order

/-- `handle_join_game` at registry level (lines 203-234 of
`src/server.py`). Line 206 evaluates
`random.choice(list(active_games.keys()))` exactly when `active_games` is
empty, which raises `IndexError`; with a non-empty registry it instead
builds the fresh identifier `'game-' + str(random.randint(100, 999))`
(the oracle argument `randNum`), resolves the first non-full room
(falling back to the fresh identifier), creates the room if absent, and
delegates to `joinGame`. -/
def handle_join_game (shC : List Card → List Card) (shS : List String → List String)
    (randNum : Nat) (name : Option String) (games : Games) :
    Except String (Games × List Event) :=
  if games.isEmpty then .error "IndexError: Cannot choose from an empty sequence"
  else
    let sid := "game-" ++ toString randNum
    let room_id := ((games.find? fun p => !p.2.is_full).map Prod.fst).getD sid
    let games₁ :=
      if (assocGet room_id games).isNone then
        games ++ [(room_id, GameState.freshRoom shC room_id)]
      else games
    match assocGet room_id games₁ with
    | none => .error "KeyError"
    | some g => do
      let (g₁, evs) ← joinGame shC shS name sid g
      .ok (assocSet room_id g₁ games₁, evs)

/-- `handle_draw_card` at registry level: resolve the caller's room, run
the room-level handler, and write the updated room back. -/
def handle_draw_card (shC : List Card → List Card) (sid : String) (games : Games) :
    Except String (Games × List Event) :=
  match get_game_and_player sid games with
  | none => .ok (games, [.errorTo sid "It is not your turn, or the game is not ready."])
  | some (rid, g, _) => do
    let (g₁, evs) ← drawCardRoom shC sid g
    .ok (assocSet rid g₁ games, evs)

/-- `handle_replace_card` at registry level. -/
def handle_replace_card (sid : String) (pos : Option Int) (games : Games) :
    Except String (Games × List Event) :=
  match get_game_and_player sid games with
  | none => .ok (games, [.errorTo sid "It is not your turn, or the game is not ready."])
  | some (rid, g, _) => do
    let (g₁, evs) ← replaceCardRoom sid pos g
    .ok (assocSet rid g₁ games, evs)

/-- `handle_discard` at registry level. -/
def handle_discard (sid : String) (games : Games) : Except String (Games × List Event) :=
  match get_game_and_player sid games with
  | none => .ok (games, [.errorTo sid "It is not your turn, or the game is not ready."])
  | some (rid, g, _) => do
    let (g₁, evs) ← discardRoom sid g
    .ok (assocSet rid g₁ games, evs)

/-- `handle_disconnect` at registry level: run the room-level handler and
either delete the room from the registry (roster emptied) or write the
reverted room back. -/
def handle_disconnect (sid : String) (games : Games) : Except String (Games × List Event) :=
  match get_game_and_player sid games with
  | none => .ok (games, [])
  | some (rid, g, _) => do
    let (g₁, evs) ← disconnectRoom sid g
    match g₁ with
    | none => .ok (assocErase rid games, evs)
    | some g₂ => .ok (assocSet rid g₂ games, evs)

/-! ## Specification-side definitions -/

/-- The total hand size over a roster. -/
def handsTotal (ps : List (String × Player)) : Nat :=
  (ps.map fun p => p.2.hand.length).sum

/-- The card count the conservation invariant speaks about: draw pile +
discard pile + all hands + one for an outstanding drawn card. -/
def totalCards (g : GameState) : Nat :=
  g.deck.cards.length + g.deck.discard_pile.length + handsTotal g.players +
    (if g.drawn_card.isSome then 1 else 0)

/-- A shuffle oracle that permutes its input in particular preserves its
length; length preservation is all the conservation argument needs. -/
def LengthPreserving (f : List Card → List Card) : Prop :=
  ∀ l, (f l).length = l.length

/-- One room-level operation from the list in the conservation claim:
a join (restricted to a connection identity not already in the roster,
which is the amended side condition), a draw (deck recycling happens
inside `Deck.draw_card`), a replace, or a discard — each taken as the
room-level handler completing without a Python exception, rejected
requests included. -/
inductive ConsOp (shC : List Card → List Card) (shS : List String → List String) :
    GameState → GameState → Prop where
  | join (name : Option String) (sid : String) (g g₁ : GameState) (evs : List Event)
      (hfresh : assocGet sid g.players = none)
      (h : joinGame shC shS name sid g = .ok (g₁, evs)) : ConsOp shC shS g g₁
  | draw (sid : String) (g g₁ : GameState) (evs : List Event)
      (h : drawCardRoom shC sid g = .ok (g₁, evs)) : ConsOp shC shS g g₁
  | replace (sid : String) (pos : Option Int) (g g₁ : GameState) (evs : List Event)
      (h : replaceCardRoom sid pos g = .ok (g₁, evs)) : ConsOp shC shS g g₁
  | discard (sid : String) (g g₁ : GameState) (evs : List Event)
      (h : discardRoom sid g = .ok (g₁, evs)) : ConsOp shC shS g g₁

/-- What the masking claim asserts about one snapshot `st` produced for
`viewer` from room state `g`: the player lists correspond positionally,
and each serialised card shows the true rank, suit and display name when
it belongs to the viewer or is face up, and the `HIDDEN` / `??` sentinels
when it is another player's face-down card. -/
def MaskingCorrect (g : GameState) (viewer : String) (st : ClientState) : Prop :=
  st.players.length = g.players.length ∧
  ∀ i (hi : i < g.players.length) (hi₁ : i < st.players.length),
    (st.players.get ⟨i, hi₁⟩).sid = (g.players.get ⟨i, hi⟩).1 ∧
    (st.players.get ⟨i, hi₁⟩).hand.length = (g.players.get ⟨i, hi⟩).2.hand.length ∧
    ∀ j (hj : j < (g.players.get ⟨i, hi⟩).2.hand.length)
        (hj₁ : j < (st.players.get ⟨i, hi₁⟩).hand.length),
      ((g.players.get ⟨i, hi⟩).1 = viewer ∨
          ((g.players.get ⟨i, hi⟩).2.hand.get ⟨j, hj⟩).is_face_up = true →
        (st.players.get ⟨i, hi₁⟩).hand.get ⟨j, hj₁⟩ =
          ((g.players.get ⟨i, hi⟩).2.hand.get ⟨j, hj⟩).to_dict) ∧
      ((g.players.get ⟨i, hi⟩).1 ≠ viewer →
          ((g.players.get ⟨i, hi⟩).2.hand.get ⟨j, hj⟩).is_face_up = false →
        ((st.players.get ⟨i, hi₁⟩).hand.get ⟨j, hj₁⟩).rank = "HIDDEN" ∧
        ((st.players.get ⟨i, hi₁⟩).hand.get ⟨j, hj₁⟩).suit = some "HIDDEN" ∧
        ((st.players.get ⟨i, hi₁⟩).hand.get ⟨j, hj₁⟩).display_name = "??")

/-! ## Concrete traces used by the counterexample and code-bug claims.
The identity function serves as the shuffle oracle throughout, i.e. the
runs are shown for one concrete (and legitimate) outcome of the random
shuffles. -/

/-- Join "A" as connection `s1`, join "B" as `s2` (this fills the room and
deals), then process a third `join_game` that reuses the identity `s1`,
which Python dict assignment turns into an overwrite of A's dealt hand. -/
def dupJoinTrace : Except String GameState := do
  let (g₁, _) ← joinGame id id (some "A") "s1" (GameState.freshRoom id "c")
  let (g₂, _) ← joinGame id id (some "B") "s2" g₁
  let (g₃, _) ← joinGame id id (some "C") "s1" g₂
  .ok g₃

/-- Fill a fresh room with Alice (`s1`) and Bob (`s2`), disconnect Bob,
then let Carol (`s3`) join: the room fills again and `start_game` deals
four further cards on top of Alice's existing four. -/
def rejoinTrace : Except String GameState := do
  let (g₁, _) ← joinGame id id (some "Alice") "s1" (GameState.freshRoom id "w")
  let (g₂, _) ← joinGame id id (some "Bob") "s2" g₁
  let (og, _) ← disconnectRoom "s2" g₂
  match og with
  | none => .error "room destroyed"
  | some g₃ => do
      let (g₄, _) ← joinGame id id (some "Carol") "s3" g₃
      .ok g₄

/-- Fill a fresh room with Alice (`s1`) and Bob (`s2`), let Alice draw and
discard (moving `current_turn_index` to 1), then disconnect Bob: the
turn order shrinks to one entry while the index stays 1. -/
def disconnectAtIndexOneTrace : Except String (Option GameState × List Event) := do
  let (g₁, _) ← joinGame id id (some "Alice") "s1" (GameState.freshRoom id "q")
  let (g₂, _) ← joinGame id id (some "Bob") "s2" g₁
  let (g₃, _) ← drawCardRoom id "s1" g₂
  let (g₄, _) ← discardRoom "s1" g₃
  disconnectRoom "s2" g₄

/-- The same scenario driven entirely through the registry-level handlers,
starting from a registry holding one fresh room (the room the code creates
at line 213): two joins, a draw and a discard by the first player, then
the first player disconnects while `current_turn_index` is 1. -/
def registryDisconnectTrace : Except String (Games × List Event) := do
  let (gs₁, _) ← handle_join_game id id 100 (some "Alice") [("r", GameState.freshRoom id "r")]
  let (gs₂, _) ← handle_join_game id id 101 (some "Bob") gs₁
  let (gs₃, _) ← handle_draw_card id "game-100" gs₂
  let (gs₄, _) ← handle_discard "game-100" gs₃
  handle_disconnect "game-100" gs₄

/-- The state of `registryDisconnectTrace` just before the disconnect,
for stating what `get_player_sid` does after the roster shrinks. -/
def registryPreDisconnect : Except String Games := do
  let (gs₁, _) ← handle_join_game id id 100 (some "Alice") [("r", GameState.freshRoom id "r")]
  let (gs₂, _) ← handle_join_game id id 101 (some "Bob") gs₁
  let (gs₃, _) ← handle_draw_card id "game-100" gs₂
  let (gs₄, _) ← handle_discard "game-100" gs₃
  .ok gs₄

/-! ## Helper lemmas -/

theorem assocGet_assocSet_self {α : Type} (k : String) (v : α) (l : List (String × α)) :
    assocGet k (assocSet k v l) = some v := by
  induction l with
  | nil => simp [assocGet, assocSet]
  | cons p rest ih =>
      by_cases h : p.1 = k
      · simp [assocSet, assocGet, h]
      · simp [assocSet, assocGet, h, ih]

theorem assocSet_of_absent {α : Type} (k : String) (v : α) (l : List (String × α))
    (h : assocGet k l = none) : assocSet k v l = l ++ [(k, v)] := by
  induction l with
  | nil => simp [assocSet]
  | cons p rest ih =>
      by_cases hk : p.1 = k
      · simp [assocGet, hk] at h
      · simp [assocGet, hk] at h
        simp [assocSet, hk, ih h]

theorem handsTotal_append (l₁ l₂ : List (String × Player)) :
    handsTotal (l₁ ++ l₂) = handsTotal l₁ + handsTotal l₂ := by
  simp [handsTotal]

theorem handsTotal_assocSet (k : String) (pd₁ : Player) (l : List (String × Player))
    (pd : Player) (h : assocGet k l = some pd) :
    handsTotal (assocSet k pd₁ l) + pd.hand.length = handsTotal l + pd₁.hand.length := by
  induction l with
  | nil => simp [assocGet] at h
  | cons p rest ih =>
      by_cases hk : p.1 = k
      · simp [assocGet, hk] at h
        simp [assocSet, hk, handsTotal, h]
        omega
      · simp [assocGet, hk] at h
        simp [assocSet, hk, handsTotal] at ih ⊢
        have := ih h
        omega

theorem getLast?_ne_nil {α : Type} (l : List α) (c : α) (h : l.getLast? = some c) :
    l ≠ [] := by
  cases l with
  | nil => simp at h
  | cons a as => simp

theorem draw_card_measure (shC : List Card → List Card) (hC : LengthPreserving shC)
    (d : Deck) (c : Card) (d₁ : Deck) (h : Deck.draw_card shC d = some (c, d₁)) :
    d₁.cards.length + d₁.discard_pile.length + 1 =
      d.cards.length + d.discard_pile.length := by
  unfold Deck.draw_card at h
  by_cases he : d.cards.isEmpty
  · rw [if_pos he] at h
    by_cases hd : d.discard_pile.isEmpty
    · rw [if_pos hd] at h
      exact absurd h (by simp)
    · rw [if_neg hd] at h
      cases hl : (shC d.discard_pile).getLast? with
      | none => rw [hl] at h; exact absurd h (by simp)
      | some c₁ =>
          rw [hl] at h
          simp only [Option.map_some', Option.some.injEq, Prod.mk.injEq] at h
          obtain ⟨hc, hd₁⟩ := h
          have hne : shC d.discard_pile ≠ [] := getLast?_ne_nil _ _ hl
          have hpos : 0 < (shC d.discard_pile).length := List.length_pos.mpr hne
          have hlen := hC d.discard_pile
          have hcard : d.cards.length = 0 := by
            simpa using congrArg List.length (List.isEmpty_iff.mp he)
          rw [← hd₁]
          simp only [List.length_dropLast, List.length_nil]
          omega
  · rw [if_neg he] at h
    cases hl : d.cards.getLast? with
    | none => rw [hl] at h; exact absurd h (by simp)
    | some c₁ =>
        rw [hl] at h
        simp only [Option.map_some', Option.some.injEq, Prod.mk.injEq] at h
        obtain ⟨hc, hd₁⟩ := h
        have hne : d.cards ≠ [] := getLast?_ne_nil _ _ hl
        have hpos : 0 < d.cards.length := List.length_pos.mpr hne
        rw [← hd₁]
        simp only [List.length_dropLast]
        omega

/-- The conserved quantity of the dealing loop: draw pile + discard pile +
the hand being filled. -/
def dealMeasure (st : Deck × List Card) : Nat :=
  st.1.cards.length + st.1.discard_pile.length + st.2.length

theorem drawInto_measure (shC : List Card → List Card) (hC : LengthPreserving shC)
    (st : Deck × List Card) (i : Nat) :
    dealMeasure (drawInto shC st i) = dealMeasure st := by
  cases hdr : Deck.draw_card shC st.1 with
  | none => simp [drawInto, hdr]
  | some cd =>
      obtain ⟨c, d₁⟩ := cd
      have hm := draw_card_measure shC hC st.1 c d₁ hdr
      simp [drawInto, hdr, dealMeasure]
      omega

theorem foldl_drawInto_measure (shC : List Card → List Card) (hC : LengthPreserving shC)
    (idxs : List Nat) :
    ∀ st : Deck × List Card, dealMeasure (idxs.foldl (drawInto shC) st) = dealMeasure st := by
  induction idxs with
  | nil => intro st; rfl
  | cons i rest ih =>
      intro st
      rw [List.foldl_cons, ih (drawInto shC st i), drawInto_measure shC hC st i]

theorem dealHand_measure (shC : List Card → List Card) (hC : LengthPreserving shC)
    (d : Deck) (hand : List Card) :
    dealMeasure (dealHand shC d hand) = dealMeasure (d, hand) :=
  foldl_drawInto_measure shC hC (List.range 4) (d, hand)

theorem start_fold_measure (shC : List Card → List Card) (hC : LengthPreserving shC)
    (ps : List (String × Player)) :
    ∀ (d : Deck) (acc : List (String × Player)),
      (ps.foldl (dealFold shC) (d, acc)).1.cards.length +
        (ps.foldl (dealFold shC) (d, acc)).1.discard_pile.length +
        handsTotal (ps.foldl (dealFold shC) (d, acc)).2 =
      d.cards.length + d.discard_pile.length + handsTotal acc + handsTotal ps := by
  induction ps with
  | nil => intro d acc; simp [handsTotal]
  | cons p rest ih =>
      intro d acc
      rw [List.foldl_cons]
      have hdm := dealHand_measure shC hC d p.2.hand
      simp only [dealMeasure] at hdm
      have hih := ih (dealHand shC d p.2.hand).1
        (acc ++ [(p.1, { p.2 with hand := (dealHand shC d p.2.hand).2 })])
      simp only [dealFold, hih, handsTotal_append]
      simp [handsTotal]
      omega

theorem totalCards_start_game (shC : List Card → List Card)
    (shS : List String → List String) (hC : LengthPreserving shC) (g : GameState) :
    totalCards (g.start_game shC shS) = totalCards g := by
  have hm := start_fold_measure shC hC g.players g.deck []
  simp only [handsTotal, List.map_nil, List.sum_nil, Nat.add_zero] at hm
  simp only [GameState.start_game, totalCards, handsTotal]
  omega

theorem bind_eq_ok {α β : Type} (e : Except String α) (f : α → Except String β) (b : β)
    (h : e >>= f = .ok b) : ∃ a, e = .ok a ∧ f a = .ok b := by
  cases e with
  | error m => simp [Bind.bind, Except.bind] at h
  | ok a => exact ⟨a, rfl, by simpa [Bind.bind, Except.bind] using h⟩

theorem totalCards_joinGame (shC : List Card → List Card) (shS : List String → List String)
    (hC : LengthPreserving shC) (name : Option String) (sid : String)
    (g g₁ : GameState) (evs : List Event)
    (hfresh : assocGet sid g.players = none)
    (h : joinGame shC shS name sid g = .ok (g₁, evs)) :
    totalCards g₁ = totalCards g := by
  have hadd : ∀ pn : String,
      totalCards { g with players := assocSet sid ⟨pn, []⟩ g.players } = totalCards g := by
    intro pn
    simp [totalCards, assocSet_of_absent _ _ _ hfresh, handsTotal_append, handsTotal]
  simp only [joinGame] at h
  split at h
  · simp at h
    rw [← h.1]
  · split at h
    · split at h
      · exact absurd h (by simp)
      · split at h
        · exact absurd h (by simp)
        · obtain ⟨bevs, hb, h⟩ := bind_eq_ok _ _ _ h
          simp [Pure.pure, Except.pure] at h
          rw [← h.1, totalCards_start_game shC shS hC, hadd]
    · obtain ⟨bevs, hb, h⟩ := bind_eq_ok _ _ _ h
      simp [Pure.pure, Except.pure] at h
      rw [← h.1, hadd]

theorem totalCards_drawCardRoom (shC : List Card → List Card)
    (hC : LengthPreserving shC) (sid : String) (g g₁ : GameState) (evs : List Event)
    (h : drawCardRoom shC sid g = .ok (g₁, evs)) :
    totalCards g₁ = totalCards g := by
  simp only [drawCardRoom] at h
  split at h
  · simp at h
    rw [← h.1]
  · split at h
    · simp at h
      rw [← h.1]
    · obtain ⟨t, ht, h⟩ := bind_eq_ok _ _ _ h
      split at h
      · simp at h
        rw [← h.1]
      · split at h
        · simp at h
          rw [← h.1]
        · next hnotsome =>
          split at h
          · simp at h
            rw [← h.1]
          · next c d₁ hdr =>
            obtain ⟨bevs, hb, h⟩ := bind_eq_ok _ _ _ h
            simp [Pure.pure, Except.pure] at h
            rw [← h.1]
            have hm := draw_card_measure shC hC g.deck c d₁ hdr
            have hnone : g.drawn_card.isSome = false := by
              simpa using hnotsome
            simp [totalCards, hnone]
            omega

theorem totalCards_replaceCardRoom (sid : String) (pos : Option Int)
    (g g₁ : GameState) (evs : List Event)
    (h : replaceCardRoom sid pos g = .ok (g₁, evs)) :
    totalCards g₁ = totalCards g := by
  simp only [replaceCardRoom] at h
  split at h
  · simp at h
    rw [← h.1]
  · next pd hpd =>
    split at h
    · simp at h
      rw [← h.1]
    · obtain ⟨t, ht, h⟩ := bind_eq_ok _ _ _ h
      split at h
      · simp at h
        rw [← h.1]
      · split at h
        · simp at h
          rw [← h.1]
        · next dc hdc =>
          split at h
          · simp at h
            rw [← h.1]
          · next p hp =>
            split at h
            · simp at h
              rw [← h.1]
            · split at h
              · exact absurd h (by simp)
              · next old_card hold =>
                obtain ⟨bevs, hb, h⟩ := bind_eq_ok _ _ _ h
                simp [Pure.pure, Except.pure] at h
                rw [← h.1]
                have hht := handsTotal_assocSet sid
                  { pd with hand := pd.hand.set p.toNat { dc with is_face_up := true } }
                  g.players pd hpd
                simp [totalCards, GameState.advance_turn, hdc] at hht ⊢
                omega

theorem totalCards_discardRoom (sid : String) (g g₁ : GameState) (evs : List Event)
    (h : discardRoom sid g = .ok (g₁, evs)) :
    totalCards g₁ = totalCards g := by
  simp only [discardRoom] at h
  split at h
  · simp at h
    rw [← h.1]
  · split at h
    · simp at h
      rw [← h.1]
    · obtain ⟨t, ht, h⟩ := bind_eq_ok _ _ _ h
      split at h
      · simp at h
        rw [← h.1]
      · split at h
        · simp at h
          rw [← h.1]
        · next dc hdc =>
          obtain ⟨bevs, hb, h⟩ := bind_eq_ok _ _ _ h
          simp [Pure.pure, Except.pure] at h
          rw [← h.1]
          simp [totalCards, GameState.advance_turn, hdc]
          omega

theorem get_player_sid_lt (g : GameState) (t : String)
    (h : g.get_player_sid = .ok (some t)) :
    g.current_turn_index < g.turn_order.length := by
  unfold GameState.get_player_sid at h
  by_cases he : g.turn_order.isEmpty
  · rw [if_pos he] at h
    simp at h
  · rw [if_neg he] at h
    cases hg : g.turn_order[g.current_turn_index]? with
    | none => rw [hg] at h; simp at h
    | some s =>
        have := List.getElem?_eq_some.mp hg
        exact this.1

theorem get_player_sid_ok_of_lt (g : GameState)
    (h : g.current_turn_index < g.turn_order.length) :
    ∃ t, g.get_player_sid = .ok (some t) := by
  have hne : g.turn_order.isEmpty = false := by
    cases hl : g.turn_order with
    | nil => rw [hl] at h; simp at h
    | cons a as => rfl
  exact ⟨g.turn_order[g.current_turn_index], by
    simp [GameState.get_player_sid, hne, List.getElem?_eq_getElem h]⟩

theorem broadcastStates_ok (g : GameState) (t : Option String)
    (h : g.get_player_sid = .ok t) (l : List String) :
    broadcastStates g l =
      .ok (l.map fun sid => .stateUpdate sid (g.buildClientState sid t)) := by
  induction l with
  | nil => rfl
  | cons s rest ih =>
      simp [broadcastStates, GameState.get_state_for_client, h, ih,
        Bind.bind, Except.bind, Pure.pure, Except.pure]

/-! ## Claim theorems -/

/-- C1: the claimed scenario — two `join_game` requests with names
"Alice" then "Bob" starting from an *empty* session registry — never gets
past the first request: line 206 of `src/server.py` evaluates
`random.choice(list(active_games.keys()))` precisely when `active_games`
is empty, so the very first join raises `IndexError` and no room is ever
created. The code evaluated at the failing input. -/
theorem claim1_first_join_on_empty_registry_raises :
    handle_join_game id id 100 (some "Alice") ([] : Games) =
      .error "IndexError: Cannot choose from an empty sequence" := rfl

/-- C2 counterexample: the conservation claim quantifies over every room
and every operation from its list, but a `join_game` whose randomly
generated identity collides with a player already in the room overwrites
that player's dealt hand (Python dict assignment), losing four cards:
after join(s1), join(s2) and a colliding join(s1) the room holds 50 cards,
not 54. -/
theorem claim2_duplicate_identity_join_breaks_conservation :
    dupJoinTrace.map totalCards = .ok 50 ∧ (50 : Nat) ≠ 54 :=
  ⟨rfl, by decide⟩

/-- C4 (code bug): after Alice and Bob fill a fresh room, Bob disconnects
and Carol joins, so the roster reaches 2 again and the room transitions
WAITING to PLAYING — but `start_game` appends four newly dealt cards to
Alice's existing four instead of re-dealing, leaving her with an 8-card
hand where the claim (and the spec's own invariant) require exactly 4. -/
theorem claim4_rejoin_deals_eight_card_hand :
    rejoinTrace.map
        (fun g => ((assocGet "s1" g.players).map fun pd => pd.hand.length, g.status)) =
      .ok (some 8, "PLAYING") := rfl

/-- C8 (code bug): when Bob disconnects from a 2-player PLAYING room whose
`current_turn_index` is 1 (Alice has already drawn and discarded), the
departing identity is removed and the status reverts, but the concluding
broadcast to the remaining player raises `IndexError` inside
`get_player_sid` — so the reverted state is never delivered, contradicting
the claim's "otherwise the reverted state is broadcast to the remaining
players". -/
theorem claim8_disconnect_broadcast_raises_instead :
    disconnectAtIndexOneTrace = .error "IndexError: list index out of range" := rfl

/-- C9: the reachable out-of-range access the claim describes, driven
end to end through the registry-level handlers: after two joins, a draw
and a discard, the room is PLAYING with `current_turn_index = 1`; the
first player's disconnect shrinks `turn_order` to one entry without
re-clamping the index, and the subsequent projection/broadcast for the
remaining player raises `IndexError` instead of producing a state
snapshot. The pre-disconnect registry state confirms the index and
turn-order shape the claim names. -/
theorem claim9_disconnect_indexes_turn_order_out_of_range :
    registryDisconnectTrace = .error "IndexError: list index out of range" ∧
    (registryPreDisconnect.map fun gs =>
        (assocGet "r" gs).map fun g =>
          (g.status, g.turn_order.length, g.current_turn_index)) =
      .ok (some ("PLAYING", 2, 1)) :=
  ⟨rfl, rfl⟩

/-- C2 as amended: in any room evolved from a fresh room by the
operations the claim lists — joins (restricted to connection identities
not already in the roster, the amendment the counterexample forces),
draws (with their internal discard-pile recycling), replaces and
discards — the draw pile, discard pile, hands and outstanding drawn card
always total 54 cards, for every length-preserving shuffle oracle. -/
theorem claim2_amended_card_conservation (shC : List Card → List Card)
    (shS : List String → List String) (hC : LengthPreserving shC) (rid : String)
    (s : GameState)
    (h : Relation.ReflTransGen (ConsOp shC shS) (GameState.freshRoom shC rid) s) :
    totalCards s = 54 := by
  induction h with
  | refl =>
      simp [totalCards, GameState.freshRoom, Deck.init, handsTotal]
      rw [hC]
      rfl
  | tail _ hstep ih =>
      cases hstep with
      | join name sid ga gb evs hfresh hj =>
          rw [totalCards_joinGame shC shS hC name sid _ _ evs hfresh hj, ih]
      | draw sid ga gb evs hd =>
          rw [totalCards_drawCardRoom shC hC sid _ _ evs hd, ih]
      | replace sid pos ga gb evs hr =>
          rw [totalCards_replaceCardRoom sid pos _ _ evs hr, ih]
      | discard sid ga gb evs hd =>
          rw [totalCards_discardRoom sid _ _ evs hd, ih]

/-- Witness for the amended conservation theorem: the identity shuffle is
length preserving and a fresh room satisfies the invariant. -/
theorem claim2_amended_card_conservation_witness :
    totalCards (GameState.freshRoom id "w0") = 54 :=
  claim2_amended_card_conservation id id (fun _ => rfl) "w0"
    (GameState.freshRoom id "w0") Relation.ReflTransGen.refl

/-- C7: when the active player draws while both the draw pile and the
discard pile are empty, the handler leaves the room state untouched (no
hand mutated, no drawn card stored, turn index unchanged) and emits
exactly one room-wide informational `game_message` — no per-caller error
and no state snapshot. -/
theorem claim7_exhausted_draw_is_single_informational_broadcast
    (shC : List Card → List Card) (sid : String) (g : GameState) (pd : Player)
    (hfound : assocGet sid g.players = some pd)
    (hst : g.status = "PLAYING")
    (hturn : g.get_player_sid = .ok (some sid))
    (hdrawn : g.drawn_card = none)
    (hcards : g.deck.cards = [])
    (hdisc : g.deck.discard_pile = []) :
    drawCardRoom shC sid g =
      .ok (g, [.gameMessage g.room_id "Deck is empty! Game might be nearing its end."]) := by
  simp [drawCardRoom, hfound, hst, hturn, hdrawn, Deck.draw_card, hcards, hdisc,
    Bind.bind, Except.bind, Pure.pure, Except.pure]

/-- A concrete PLAYING room whose draw and discard piles are both empty,
with the active player `s1`. -/
def exhaustedRoom : GameState :=
  { room_id := "e",
    players := [("s1", { name := "Ann", hand := [] }), ("s2", { name := "Ben", hand := [] })],
    deck := { cards := [], discard_pile := [] }, drawn_card := none,
    turn_order := ["s1", "s2"], current_turn_index := 0, status := "PLAYING",
    max_players := 2 }

/-- Witness for the exhausted-deck theorem at the concrete room above. -/
theorem claim7_exhausted_draw_witness :
    drawCardRoom id "s1" exhaustedRoom =
      .ok (exhaustedRoom,
        [.gameMessage "e" "Deck is empty! Game might be nearing its end."]) :=
  claim7_exhausted_draw_is_single_informational_broadcast id "s1" exhaustedRoom
    { name := "Ann", hand := [] } rfl rfl rfl rfl rfl rfl

/-- C10: `broadcast_game_state` iterates only `turn_order`, so a room with
an empty turn order — in particular any WAITING room before the game has
started — broadcasts no `game_state_update` at all; and indeed the first
join into a fresh room completes with an empty event list (the joiner
receives no snapshot) and leaves `turn_order` empty. -/
theorem claim10_empty_turn_order_broadcasts_nothing :
    (∀ (games : Games) (rid : String) (g : GameState),
        assocGet rid games = some g → g.turn_order = [] →
        broadcast_game_state games rid = .ok []) ∧
    (∀ (shC : List Card → List Card) (shS : List String → List String)
        (name : Option String) (sid rid : String),
        ∃ g₁ : GameState,
          joinGame shC shS name sid (GameState.freshRoom shC rid) = .ok (g₁, []) ∧
          g₁.turn_order = []) := by
  constructor
  · intro games rid g hg hturn
    simp [broadcast_game_state, hg, hturn, broadcastStates]
  · intro shC shS name sid rid
    exact ⟨_, rfl, rfl⟩

/-- Witness for the broadcast theorem: a registry holding one fresh room
(empty turn order) broadcasts nothing. -/
theorem claim10_empty_turn_order_witness :
    broadcast_game_state [("r0", GameState.freshRoom id "r0")] "r0" = .ok [] :=
  claim10_empty_turn_order_broadcasts_nothing.1
    [("r0", GameState.freshRoom id "r0")] "r0" (GameState.freshRoom id "r0") rfl rfl

/-- C6: every listed precondition violation — room not PLAYING, not the
caller's turn, drawn card already outstanding (draw), no drawn card
outstanding (replace/discard), hand position missing or outside [0,4)
(replace) — makes the handler return the *unchanged* room state together
with exactly one `error` event addressed to the offending connection:
no `game_message` and no `game_state_update` is ever emitted for the
room on a rejection. -/
theorem claim6_rejections_unchanged_state_error_to_caller_only :
    (∀ (shC : List Card → List Card) (sid : String) (g : GameState) (pd : Player),
        assocGet sid g.players = some pd → g.status ≠ "PLAYING" →
        drawCardRoom shC sid g =
          .ok (g, [.errorTo sid "It is not your turn, or the game is not ready."])) ∧
    (∀ (shC : List Card → List Card) (sid : String) (g : GameState) (pd : Player)
        (t : Option String),
        assocGet sid g.players = some pd → g.status = "PLAYING" →
        g.get_player_sid = .ok t → t ≠ some sid →
        drawCardRoom shC sid g =
          .ok (g, [.errorTo sid "It is not your turn, or the game is not ready."])) ∧
    (∀ (shC : List Card → List Card) (sid : String) (g : GameState) (pd : Player)
        (c : Card),
        assocGet sid g.players = some pd → g.status = "PLAYING" →
        g.get_player_sid = .ok (some sid) → g.drawn_card = some c →
        drawCardRoom shC sid g =
          .ok (g, [.errorTo sid "You already have a drawn card to resolve."])) ∧
    (∀ (sid : String) (pos : Option Int) (g : GameState) (pd : Player),
        assocGet sid g.players = some pd → g.status ≠ "PLAYING" →
        replaceCardRoom sid pos g =
          .ok (g, [.errorTo sid "It is not your turn, or the game is not ready."])) ∧
    (∀ (sid : String) (pos : Option Int) (g : GameState) (pd : Player)
        (t : Option String),
        assocGet sid g.players = some pd → g.status = "PLAYING" →
        g.get_player_sid = .ok t → t ≠ some sid →
        replaceCardRoom sid pos g =
          .ok (g, [.errorTo sid "It is not your turn, or the game is not ready."])) ∧
    (∀ (sid : String) (pos : Option Int) (g : GameState) (pd : Player),
        assocGet sid g.players = some pd → g.status = "PLAYING" →
        g.get_player_sid = .ok (some sid) → g.drawn_card = none →
        replaceCardRoom sid pos g =
          .ok (g, [.errorTo sid "No card has been drawn."])) ∧
    (∀ (sid : String) (g : GameState) (pd : Player) (c : Card),
        assocGet sid g.players = some pd → g.status = "PLAYING" →
        g.get_player_sid = .ok (some sid) → g.drawn_card = some c →
        replaceCardRoom sid none g =
          .ok (g, [.errorTo sid "Invalid hand position specified (must be 0-3)."])) ∧
    (∀ (sid : String) (g : GameState) (pd : Player) (c : Card) (p : Int),
        assocGet sid g.players = some pd → g.status = "PLAYING" →
        g.get_player_sid = .ok (some sid) → g.drawn_card = some c →
        ¬(0 ≤ p ∧ p < 4) →
        replaceCardRoom sid (some p) g =
          .ok (g, [.errorTo sid "Invalid hand position specified (must be 0-3)."])) ∧
    (∀ (sid : String) (g : GameState) (pd : Player),
        assocGet sid g.players = some pd → g.status ≠ "PLAYING" →
        discardRoom sid g =
          .ok (g, [.errorTo sid "It is not your turn, or the game is not ready."])) ∧
    (∀ (sid : String) (g : GameState) (pd : Player) (t : Option String),
        assocGet sid g.players = some pd → g.status = "PLAYING" →
        g.get_player_sid = .ok t → t ≠ some sid →
        discardRoom sid g =
          .ok (g, [.errorTo sid "It is not your turn, or the game is not ready."])) ∧
    (∀ (sid : String) (g : GameState) (pd : Player),
        assocGet sid g.players = some pd → g.status = "PLAYING" →
        g.get_player_sid = .ok (some sid) → g.drawn_card = none →
        discardRoom sid g =
          .ok (g, [.errorTo sid "No card has been drawn to discard."])) := by
  refine ⟨?_, ?_, ?_, ?_, ?_, ?_, ?_, ?_, ?_, ?_, ?_⟩
  · intro shC sid g pd hfound hst
    simp [drawCardRoom, hfound, hst]
  · intro shC sid g pd t hfound hst hsid ht
    simp [drawCardRoom, hfound, hst, hsid, ht, Bind.bind, Except.bind]
  · intro shC sid g pd c hfound hst hsid hdr
    simp [drawCardRoom, hfound, hst, hsid, hdr, Bind.bind, Except.bind]
  · intro sid pos g pd hfound hst
    simp [replaceCardRoom, hfound, hst]
  · intro sid pos g pd t hfound hst hsid ht
    simp [replaceCardRoom, hfound, hst, hsid, ht, Bind.bind, Except.bind]
  · intro sid pos g pd hfound hst hsid hdr
    cases pos with
    | none => simp [replaceCardRoom, hfound, hst, hsid, hdr, Bind.bind, Except.bind]
    | some p => simp [replaceCardRoom, hfound, hst, hsid, hdr, Bind.bind, Except.bind]
  · intro sid g pd c hfound hst hsid hdr
    simp [replaceCardRoom, hfound, hst, hsid, hdr, Bind.bind, Except.bind]
  · intro sid g pd c p hfound hst hsid hdr hp
    simp [replaceCardRoom, hfound, hst, hsid, hdr, hp, Bind.bind, Except.bind]
  · intro sid g pd hfound hst
    simp [discardRoom, hfound, hst]
  · intro sid g pd t hfound hst hsid ht
    simp [discardRoom, hfound, hst, hsid, ht, Bind.bind, Except.bind]
  · intro sid g pd hfound hst hsid hdr
    simp [discardRoom, hfound, hst, hsid, hdr, Bind.bind, Except.bind]

/-- A concrete WAITING room (one player, no deal yet) used to witness a
turn-violation rejection. -/
def waitingRoom : GameState :=
  { room_id := "v", players := [("s1", { name := "Ann", hand := [] })],
    deck := Deck.init id, drawn_card := none, turn_order := [],
    current_turn_index := 0, status := "WAITING", max_players := 2 }

/-- Witness for the rejection theorem: a draw attempted in a WAITING room
is rejected with the unchanged state and a single caller-directed
error. -/
theorem claim6_rejections_witness :
    drawCardRoom id "s1" waitingRoom =
      .ok (waitingRoom,
        [.errorTo "s1" "It is not your turn, or the game is not ready."]) :=
  claim6_rejections_unchanged_state_error_to_caller_only.1 id "s1" waitingRoom
    { name := "Ann", hand := [] } rfl (by decide)

/-- C5: whenever `replace_card` or `discard_drawn_card` succeeds (all
preconditions hold), the outstanding drawn card is cleared and the
current-turn index advances by exactly one position modulo the (unchanged)
turn-order length; for `replace_card` the drawn card additionally lands
face-up at the requested hand position and the displaced card is appended
to the discard pile. -/
theorem claim5_resolution_clears_drawn_and_advances_turn :
    (∀ (sid : String) (g : GameState) (pd : Player) (dc : Card) (p : Int) (old : Card)
        (g₁ : GameState) (evs : List Event),
        assocGet sid g.players = some pd →
        g.status = "PLAYING" →
        g.get_player_sid = .ok (some sid) →
        g.drawn_card = some dc →
        0 ≤ p → p < 4 →
        pd.hand[p.toNat]? = some old →
        replaceCardRoom sid (some p) g = .ok (g₁, evs) →
        g₁.drawn_card = none ∧
        g₁.turn_order = g.turn_order ∧
        g₁.current_turn_index = (g.current_turn_index + 1) % g.turn_order.length ∧
        assocGet sid g₁.players =
          some { pd with hand := pd.hand.set p.toNat { dc with is_face_up := true } } ∧
        g₁.deck.discard_pile = g.deck.discard_pile ++ [old]) ∧
    (∀ (sid : String) (g : GameState) (pd : Player) (dc : Card)
        (g₁ : GameState) (evs : List Event),
        assocGet sid g.players = some pd →
        g.status = "PLAYING" →
        g.get_player_sid = .ok (some sid) →
        g.drawn_card = some dc →
        discardRoom sid g = .ok (g₁, evs) →
        g₁.drawn_card = none ∧
        g₁.turn_order = g.turn_order ∧
        g₁.current_turn_index = (g.current_turn_index + 1) % g.turn_order.length ∧
        g₁.deck.discard_pile = g.deck.discard_pile ++ [dc]) := by
  constructor
  · intro sid g pd dc p old g₁ evs hfound hst hturn hdrawn hp0 hp4 hold h
    have hrange : 0 ≤ p ∧ p < 4 := ⟨hp0, hp4⟩
    simp only [replaceCardRoom, hfound, hst, hturn, hdrawn, hold, hrange,
      Bind.bind, Except.bind, ne_eq, not_true_eq_false, if_false, not_not,
      if_true, not_false_eq_true] at h
    simp [hrange] at h
    obtain ⟨bevs, hb, h⟩ := bind_eq_ok _ _ _ h
    simp [Pure.pure, Except.pure] at h
    obtain ⟨hg₁, -⟩ := h
    rw [← hg₁]
    exact ⟨rfl, rfl, rfl, assocGet_assocSet_self sid _ g.players, rfl⟩
  · intro sid g pd dc g₁ evs hfound hst hturn hdrawn h
    simp only [discardRoom, hfound, hst, hturn, hdrawn,
      Bind.bind, Except.bind] at h
    simp at h
    obtain ⟨bevs, hb, h⟩ := bind_eq_ok _ _ _ h
    simp [Pure.pure, Except.pure] at h
    obtain ⟨hg₁, -⟩ := h
    rw [← hg₁]
    exact ⟨rfl, rfl, rfl, rfl⟩

/-- Ann's concrete 4-card hand for the resolution witness. -/
def annHand : List Card :=
  [⟨"A", some "Hearts", true⟩, ⟨"2", some "Hearts", true⟩,
   ⟨"3", some "Hearts", false⟩, ⟨"4", some "Hearts", false⟩]

/-- Ben's concrete 4-card hand for the resolution witness. -/
def benHand : List Card :=
  [⟨"5", some "Clubs", true⟩, ⟨"6", some "Clubs", true⟩,
   ⟨"7", some "Clubs", false⟩, ⟨"8", some "Clubs", false⟩]

/-- A concrete two-player PLAYING room with a drawn card outstanding and
the turn on `s1`, used to witness the resolution theorem. -/
def playingRoom : GameState :=
  { room_id := "p",
    players := [("s1", { name := "Ann", hand := annHand }),
                ("s2", { name := "Ben", hand := benHand })],
    deck := { cards := [⟨"9", some "Diamonds", false⟩],
              discard_pile := [⟨"10", some "Diamonds", false⟩] },
    drawn_card := some ⟨"K", some "Spades", true⟩,
    turn_order := ["s1", "s2"], current_turn_index := 0, status := "PLAYING",
    max_players := 2 }

/-- The result of `s1` replacing the hand card at position 2 of
`playingRoom` with the drawn card. -/
def replaceOutcome : Except String (GameState × List Event) :=
  replaceCardRoom "s1" (some 2) playingRoom

/-- The room state of `replaceOutcome`. -/
def replaceOutcomeState : GameState :=
  match replaceOutcome with
  | .ok r => r.1
  | .error _ => playingRoom

/-- The emitted events of `replaceOutcome`. -/
def replaceOutcomeEvents : List Event :=
  match replaceOutcome with
  | .ok r => r.2
  | .error _ => []

/-- Witness for the resolution theorem: the concrete replace at position 2
clears the drawn card, advances the turn index modulo the turn-order
length, lands the drawn card face-up at position 2, and appends the
displaced card to the discard pile. -/
theorem claim5_resolution_witness :
    replaceOutcomeState.drawn_card = none ∧
    replaceOutcomeState.turn_order = playingRoom.turn_order ∧
    replaceOutcomeState.current_turn_index =
      (playingRoom.current_turn_index + 1) % playingRoom.turn_order.length ∧
    assocGet "s1" replaceOutcomeState.players =
      some { name := "Ann", hand := annHand.set 2 ⟨"K", some "Spades", true⟩ } ∧
    replaceOutcomeState.deck.discard_pile =
      playingRoom.deck.discard_pile ++ [⟨"3", some "Hearts", false⟩] :=
  claim5_resolution_clears_drawn_and_advances_turn.1 "s1" playingRoom
    { name := "Ann", hand := annHand } ⟨"K", some "Spades", true⟩ 2
    ⟨"3", some "Hearts", false⟩ replaceOutcomeState replaceOutcomeEvents
    rfl rfl rfl rfl (by decide) (by decide) rfl rfl

/-- C3: every snapshot the projection produces for a viewer shows the true
rank, suit and display name of each card that belongs to the viewer or is
face up, and replaces rank and suit by the `HIDDEN` sentinel and the
display name by the `??` placeholder for every other player's face-down
card. -/
theorem claim3_masking_projection (g : GameState) (viewer : String) (st : ClientState)
    (h : g.get_state_for_client viewer = .ok st) :
    MaskingCorrect g viewer st := by
  obtain ⟨t, ht, h⟩ := bind_eq_ok _ _ _ h
  simp only [Pure.pure, Except.pure, Except.ok.injEq] at h
  subst h
  simp only [MaskingCorrect, GameState.buildClientState]
  refine ⟨by simp, ?_⟩
  intro i hi hi₁
  simp only [List.get_eq_getElem, List.getElem_map]
  refine ⟨trivial, by simp, ?_⟩
  intro j hj hj₁
  constructor
  · intro hA
    rcases hA with hA | hA
    · simp [maskCard, hA]
    · simp [maskCard, hA]
  · intro hne hface
    simp [maskCard, Card.to_dict, hne, hface]

/-- A concrete two-player room with mixed face-up and face-down cards,
with the turn on `s1`, used to witness the masking theorem. -/
def maskRoom : GameState :=
  { room_id := "m",
    players :=
      [("s1", { name := "Ann", hand :=
          [{ rank := "A", suit := some "Hearts", is_face_up := true },
           { rank := "2", suit := some "Clubs", is_face_up := false }] }),
       ("s2", { name := "Ben", hand :=
          [{ rank := "K", suit := some "Spades", is_face_up := true },
           { rank := "Joker", suit := none, is_face_up := false }] })],
    deck := { cards := [], discard_pile := [] }, drawn_card := none,
    turn_order := ["s1", "s2"], current_turn_index := 0, status := "PLAYING",
    max_players := 2 }

/-- Witness for the masking theorem: the projection of `maskRoom` for
viewer `s1` satisfies the masking property. -/
theorem claim3_masking_projection_witness :
    MaskingCorrect maskRoom "s1" (maskRoom.buildClientState "s1" (some "s1")) :=
  claim3_masking_projection maskRoom "s1"
    (maskRoom.buildClientState "s1" (some "s1")) rfl

end Kaboom
